import Mathlib

/-!
Verification development for the `orcid_fetcher` repository
(source file `getWorksByORCID.py`).

The Python program normalizes semi-structured JSON documents returned by
the ORCID public API and batches the normalization over a roster read
from a spreadsheet.  We give a shallow embedding of the two functions
`get_orcid_works` (its response-normalization loop) and
`fetch_orcid_works_from_excel` (the batch orchestrator), modelling
Python values with an explicit JSON-like value type and modelling
Python exceptions with `Except String`.  The HTTP transport, the
spreadsheet reader/writer and `time.sleep` are external collaborators
and are modelled as parameters of the run.
-/

/-- A Python/JSON value as it appears in a parsed API response:
`None`/null, booleans, integers, strings, lists and string-keyed
dictionaries (JSON objects).  Dictionaries are association lists in
insertion order. -/
inductive JVal where
  | none : JVal
  | bool : Bool → JVal
  | int : Int → JVal
  | str : String → JVal
  | list : List JVal → JVal
  | dict : List (String × JVal) → JVal

/-- First binding of key `k` in an association list (Python dict lookup). -/
def jlookup (fs : List (String × JVal)) (k : String) : Option JVal :=
  match fs with
  | [] => Option.none
  | (k2, v) :: rest => if k2 = k then some v else jlookup rest k

/-- Python truthiness: `None`, `False`, `0`, the empty string, the empty
list and the empty dict are falsy; everything else is truthy. -/
def truthy : JVal → Bool
  | .none => false
  | .bool b => b
  | .int n => n ≠ 0
  | .str s => s ≠ ""
  | .list xs => !xs.isEmpty
  | .dict fs => !fs.isEmpty

/-- Python `x or y`: `x` if truthy, else `y`. -/
def pyOr (x y : JVal) : JVal :=
  if truthy x then x else y

/-- Python `v.get(k, d)`.  Only dictionaries have a `get` method; on any
other value (including `None`) attribute access raises `AttributeError`. -/
def pyGet (v : JVal) (k : String) (d : JVal) : Except String JVal :=
  match v with
  | .dict fs => .ok ((jlookup fs k).getD d)
  | _ => .error "AttributeError"

/-- Python `v.get(k)` — default `None`. -/
def pyGetNone (v : JVal) (k : String) : Except String JVal :=
  pyGet v k .none

/-- Python `v[0]`.  Lists and strings index positionally (`IndexError`
when empty); a dict would look up the integer key `0`, which cannot be
present since our dict keys are strings (`KeyError`); other values
raise `TypeError`. -/
def pySub0 : JVal → Except String JVal
  | .list (x :: _) => .ok x
  | .list [] => .error "IndexError"
  | .str s =>
    match s.data with
    | c :: _ => .ok (.str (String.singleton c))
    | [] => .error "IndexError"
  | .dict _ => .error "KeyError"
  | _ => .error "TypeError"

/-- Python `v[k]` for a string key `k`: dict lookup raising `KeyError`
when absent; a string key never indexes a list or string, and `None`
is not subscriptable (`TypeError`). -/
def pySubscript (v : JVal) (k : String) : Except String JVal :=
  match v with
  | .dict fs =>
    match jlookup fs k with
    | some x => .ok x
    | Option.none => .error "KeyError"
  | _ => .error "TypeError"

/-- Python `k in v` for a string `k`: key membership for dicts, element
membership for lists, substring test for strings; `TypeError` otherwise. -/
def pyContains (v : JVal) (k : String) : Except String Bool :=
  match v with
  | .dict fs => .ok (jlookup fs k).isSome
  | .list xs => .ok (xs.any fun x =>
      match x with
      | .str s => s = k
      | _ => false)
  | .str s => .ok (if k = "" then true else 2 ≤ (s.splitOn k).length)
  | _ => .error "TypeError"

/-- Python `for x in v`: lists yield their elements, dicts their keys,
strings their characters; other values are not iterable (`TypeError`). -/
def pyIter : JVal → Except String (List JVal)
  | .list xs => .ok xs
  | .dict fs => .ok (fs.map fun kv => JVal.str kv.fst)
  | .str s => .ok (s.data.map fun c => JVal.str (String.singleton c))
  | _ => .error "TypeError"

/-- The single-quote character used by Python `repr` of strings. -/
def pySingleQuote : String := String.singleton (Char.ofNat 39)

mutual

/-- Python `repr`, as far as the embedded values need it (string escaping
inside `repr` of a string is not modelled). -/
def pyRepr : JVal → String
  | .none => "None"
  | .bool true => "True"
  | .bool false => "False"
  | .int n => toString n
  | .str s => pySingleQuote ++ s ++ pySingleQuote
  | .list xs => "[" ++ pyReprListAux xs ++ "]"
  | .dict fs => "\x7b" ++ pyReprDictAux fs ++ "\x7d"

/-- Comma-separated `repr` of list elements. -/
def pyReprListAux : List JVal → String
  | [] => ""
  | [x] => pyRepr x
  | x :: y :: xs => pyRepr x ++ ", " ++ pyReprListAux (y :: xs)

/-- Comma-separated `repr` of dict entries. -/
def pyReprDictAux : List (String × JVal) → String
  | [] => ""
  | [(k, v)] => pySingleQuote ++ k ++ pySingleQuote ++ ": " ++ pyRepr v
  | (k, v) :: e :: fs =>
    pySingleQuote ++ k ++ pySingleQuote ++ ": " ++ pyRepr v ++ ", " ++
      pyReprDictAux (e :: fs)

end

/-- Python `str(v)` (also the conversion applied by f-string
interpolation): a string is itself, anything else is its `repr`. -/
def pyStr : JVal → String
  | .str s => s
  | v => pyRepr v

/-- Python `str.zfill(width)`: left-pad with zeros to `width`, keeping a
leading sign in front of the padding. -/
def zfill (width : Nat) (s : String) : String :=
  if width ≤ s.length then s
  else
    let pad := List.replicate (width - s.length) '0'
    match s.data with
    | c :: rest =>
      if c = '-' ∨ c = '+' then String.mk (c :: (pad ++ rest))
      else String.mk (pad ++ (c :: rest))
    | [] => String.mk pad

/-- The ASCII whitespace characters stripped by Python `str.strip()`
(space, tab, newline, carriage return, vertical tab, form feed; the
further Unicode space characters are not modelled). -/
def isPySpace (c : Char) : Bool :=
  c = ' ' ∨ c = Char.ofNat 9 ∨ c = Char.ofNat 10 ∨ c = Char.ofNat 13 ∨
    c = Char.ofNat 11 ∨ c = Char.ofNat 12

/-- Python `str.strip()`: drop leading and trailing whitespace. -/
def pyStrip (s : String) : String :=
  String.mk (((s.data.dropWhile isPySpace).reverse.dropWhile isPySpace).reverse)

/-- One normalized publication, as built by the loop body of
`get_orcid_works`.  `title`, `journal` and `doi` hold whatever Python
value the loop computed (usually a string, possibly `None` when the
document stores null under a `value` key); `publication_date` is either
the built `YYYY-MM-DD` string or Python `None`. -/
structure Work where
  title : JVal
  publication_date : Option String
  journal : JVal
  doi : JVal

/-- The title chain `work_summary.get("title", dict()).get("title", dict()).get("value", "N/A")`. -/
def titleOf (ws : JVal) : Except String JVal := do
  let t1 ← pyGet ws "title" (.dict [])
  let t2 ← pyGet t1 "title" (.dict [])
  pyGet t2 "value" (.str "N/A")

/-- The `publication-date` block of the loop: `pub_date = work_summary.get("publication-date")`;
when truthy, `year`, `month`, `day` are read as
`(pub_date.get(f) or dict()).get("value")` with `or ""` for the year and
`or "01"` for month and day, month and day pass through `str(...)`, and the
date string is produced only when `year` is truthy. -/
def pubDateOf (ws : JVal) : Except String (Option String) := do
  let pd ← pyGetNone ws "publication-date"
  if truthy pd then do
    let y0 ← pyGetNone pd "year"
    let year0 ← pyGetNone (pyOr y0 (.dict [])) "value"
    let year := pyOr year0 (.str "")
    let m0 ← pyGetNone pd "month"
    let month0 ← pyGetNone (pyOr m0 (.dict [])) "value"
    let month := pyStr (pyOr month0 (.str "01"))
    let d0 ← pyGetNone pd "day"
    let day0 ← pyGetNone (pyOr d0 (.dict [])) "value"
    let day := pyStr (pyOr day0 (.str "01"))
    if truthy year then
      pure (some (pyStr year ++ "-" ++ zfill 2 month ++ "-" ++ zfill 2 day))
    else
      pure Option.none
  else
    pure Option.none

/-- The `else` arm of the journal block: `source_names = work_summary.get("source", [])`;
when truthy, take `source_names[0]` and, when it contains `"source-name"`,
read `source["source-name"].get("value", "N/A")`; otherwise the journal
stays `"N/A"`. -/
def sourceFallback (ws : JVal) : Except String JVal := do
  let sources ← pyGet ws "source" (.list [])
  if truthy sources then do
    let src ← pySub0 sources
    let b ← pyContains src "source-name"
    if b then do
      let sn ← pySubscript src "source-name"
      pyGet sn "value" (.str "N/A")
    else
      pure (.str "N/A")
  else
    pure (.str "N/A")

/-- The journal block: `if "journal-title" in work_summary and work_summary["journal-title"]:`
read `work_summary["journal-title"].get("value", "N/A")`, else fall back to
the first source entry. -/
def journalOf (ws : JVal) : Except String JVal := do
  let b ← pyContains ws "journal-title"
  if b then do
    let jt ← pySubscript ws "journal-title"
    if truthy jt then
      pyGet jt "value" (.str "N/A")
    else
      sourceFallback ws
  else
    sourceFallback ws

/-- The DOI scan: return the `external-id-value` (default `"N/A"`) of the
first entry whose `external-id-type` equals the string `"doi"`; `"N/A"`
when the scan falls off the end.  Python `==` between a non-string and
`"doi"` is `False`, matching the pattern test here. -/
def findDoi : List JVal → Except String JVal
  | [] => pure (.str "N/A")
  | e :: rest => do
    let t ← pyGetNone e "external-id-type"
    match t with
    | .str s =>
      if s = "doi" then pyGet e "external-id-value" (.str "N/A")
      else findDoi rest
    | _ => findDoi rest

/-- The lookup `work_summary.get("external-ids", dict()).get("external-id", [])`
followed by the scan loop. -/
def doiOf (ws : JVal) : Except String JVal := do
  let e1 ← pyGet ws "external-ids" (.dict [])
  let eids ← pyGet e1 "external-id" (.list [])
  let items ← pyIter eids
  findDoi items

/-- One iteration of the loop of `get_orcid_works`:
`work_summary = group.get("work-summary", [dict()])[0]`, then the four
field extractions in source order. -/
def processGroup (group : JVal) : Except String Work := do
  let ws0 ← pyGet group "work-summary" (.list [.dict []])
  let ws ← pySub0 ws0
  let t ← titleOf ws
  let pd ← pubDateOf ws
  let j ← journalOf ws
  let d ← doiOf ws
  pure ⟨t, pd, j, d⟩

/-- The `works.append(...)` loop over the groups, one record per group in
order.  An exception in any iteration propagates (the partial list is
discarded), exactly as in Python. -/
def extractLoop : List JVal → Except String (List Work)
  | [] => .ok []
  | g :: rest => do
    let w ← processGroup g
    let ws ← extractLoop rest
    pure (w :: ws)

/-- The whole normalization loop of `get_orcid_works` applied to the
parsed response document: `for group in data.get("group", []):`. -/
def extractWorks (data : JVal) : Except String (List Work) := do
  let g ← pyGet data "group" (.list [])
  let groups ← pyIter g
  extractLoop groups

/-- Outcome of the HTTP GET performed by `get_orcid_works` for one
identifier: a transport-level failure (network error, timeout or
non-success status — the `requests.exceptions.RequestException` branch)
or a successfully parsed JSON document. -/
inductive FetchOutcome where
  | failure : FetchOutcome
  | success : JVal → FetchOutcome

/-- One row of the input spreadsheet, holding the raw cell values of the
`Name` and `ORCID` columns (as the Python objects pandas yields). -/
structure RosterRow where
  name : JVal
  orcid : JVal

/-- The parsed input spreadsheet: its column names and, for each row,
the two cells the program reads. -/
structure ExcelTable where
  columns : List String
  rows : List RosterRow

/-- The external collaborators of the batch run: the HTTP transport
(keyed by the identifier put into the URL) and the spreadsheet reader
(keyed by file name; an error models any exception raised by
`pd.read_excel`). -/
structure World where
  http : String → FetchOutcome
  readExcel : String → Except String ExcelTable

/-- The function `get_orcid_works` itself: on transport failure print and return the
empty list; otherwise run the normalization loop on the parsed body.
Exceptions of the loop propagate to the caller — the `try` block only
covers the request. -/
def get_orcid_works (w : World) (orcid_id : String) : Except String (List Work) :=
  match w.http orcid_id with
  | .failure => .ok []
  | .success data => extractWorks data

/-- A `Work` tagged with its owner, as produced by
`work.update(dict with Name and ORCID)` in the orchestrator loop. -/
structure TaggedWork where
  name : String
  orcid : String
  work : Work

/-- Python `str.lower()` character by character (the sentinel tokens are
ASCII, so ASCII lowering suffices). -/
def pyLower (s : String) : String :=
  String.mk (s.data.map Char.toLower)

/-- The skip test of the orchestrator:
`not orcid or orcid.lower() in ["nan", "none", "", "null"]`
(the argument is the already-stripped string form of the cell). -/
def isInvalidOrcid (orcid : String) : Bool :=
  orcid = "" || (pyLower orcid = "nan" || pyLower orcid = "none" ||
    pyLower orcid = "" || pyLower orcid = "null")

/-- One iteration of the roster loop: strip the string forms of the two
cells, skip invalid identifiers, otherwise fetch and tag.  Returns the
records the row contributes together with the list of identifiers passed
to the fetch collaborator (so that "no fetch is performed" is an
observable fact).  The `time.sleep` call is an external effect with no
bearing on the data flow and is not modelled. -/
def processRow (w : World) (r : RosterRow) :
    Except String (List TaggedWork × List String) :=
  let name := pyStrip (pyStr r.name)
  let orcid := pyStrip (pyStr r.orcid)
  if isInvalidOrcid orcid then
    .ok ([], [])
  else
    match get_orcid_works w orcid with
    | .error e => .error e
    | .ok works => .ok (works.map (fun wk => ⟨name, orcid, wk⟩), [orcid])

/-- The whole roster loop, accumulating `all_works` and the fetch trace
in input order.  An exception escaping `get_orcid_works` aborts the loop
(and the whole Python function) at that row. -/
def processRows (w : World) : List RosterRow →
    Except String (List TaggedWork × List String)
  | [] => .ok ([], [])
  | r :: rest =>
    match processRow w r with
    | .error e => .error e
    | .ok (ws, tr) =>
      match processRows w rest with
      | .error e => .error e
      | .ok (ws2, tr2) => .ok (ws ++ ws2, tr ++ tr2)

/-- The module-level globals the body of `fetch_orcid_works_from_excel`
actually reads (`input_file`, `output_file`).  They are bound only when
the file runs as a script; `Option.none` models an unbound global, whose
read raises `NameError`. -/
structure Globals where
  input_file : Option String
  output_file : Option String

/-- What one call of `fetch_orcid_works_from_excel` does, as far as its
observable effects go: return after a configuration-error message
(unreadable input or missing columns), return after the
nothing-to-export notice (no file written), write the export table once,
or terminate with an uncaught exception. -/
inductive RunResult where
  | configError : String → RunResult
  | nothingToExport : RunResult
  | written : String → List String → List (List JVal) → RunResult
  | raised : String → RunResult

/-- The run result together with the fetch trace accumulated before the
run ended. -/
structure RunOutcome where
  result : RunResult
  fetched : List String

/-- The fixed export header produced by `desired_order` plus the
`rename` mapping. -/
def exportHeader : List String :=
  ["Name", "ORCID", "Title", "Publication Date", "Journal/Source", "DOI"]

/-- Python `None` exported into a cell (pandas writes it as an empty
cell); a date string is exported as a string. -/
def optToJVal : Option String → JVal
  | Option.none => JVal.none
  | some s => JVal.str s

/-- One exported row in the `desired_order` column order.  Every
accumulated dict carries all six keys (`get_orcid_works` always sets the
four content keys and the loop always adds `Name` and `ORCID`), so the
fill-in of absent columns with `"N/A"` never fires and the projection to
`desired_order` is total. -/
def exportRow (t : TaggedWork) : List JVal :=
  [.str t.name, .str t.orcid, t.work.title,
    optToJVal t.work.publication_date, t.work.journal, t.work.doi]

/-- The orchestrator `fetch_orcid_works_from_excel(input_excel, output_excel, sleep_time)`.
The body never reads its parameters: it reads the globals `input_file`
and `output_file`.  An unbound `input_file` raises `NameError` inside the
`try`, caught by `except Exception` as the cannot-read configuration
error; an unbound `output_file` raises `NameError` at the write, where
nothing catches it. -/
def fetch_orcid_works_from_excel (w : World) (g : Globals)
    (input_excel output_excel : String) : RunOutcome :=
  match g.input_file with
  | Option.none => ⟨.configError "Cannot read Excel file", []⟩
  | some fin =>
    match w.readExcel fin with
    | .error _ => ⟨.configError "Cannot read Excel file", []⟩
    | .ok tbl =>
      if "Name" ∈ tbl.columns ∧ "ORCID" ∈ tbl.columns then
        match processRows w tbl.rows with
        | .error e => ⟨.raised e, []⟩
        | .ok (allWorks, tr) =>
          if allWorks.isEmpty then
            ⟨.nothingToExport, tr⟩
          else
            match g.output_file with
            | Option.none => ⟨.raised "NameError", tr⟩
            | some fout => ⟨.written fout exportHeader (allWorks.map exportRow), tr⟩
      else
        ⟨.configError "Excel must include Name and ORCID columns", []⟩

/-! ### Well-formedness predicates on documents -/

mutual

/-- Holds when the value contains no JSON null (`None`) anywhere. -/
def noNull : JVal → Bool
  | .none => false
  | .bool _ => true
  | .int _ => true
  | .str _ => true
  | .list xs => noNullList xs
  | .dict fs => noNullFields fs

/-- The predicate `noNull` over every element of a list. -/
def noNullList : List JVal → Bool
  | [] => true
  | x :: xs => noNull x && noNullList xs

/-- The predicate `noNull` over every value of an association list. -/
def noNullFields : List (String × JVal) → Bool
  | [] => true
  | kv :: fs => noNull kv.snd && noNullFields fs

end

/-! ### General lemmas about the embedded Python primitives -/

/-- Unfolding of `Except` bind against an `ok` result. -/
theorem exceptBind_ok {α β : Type} {x : Except String α}
    {f : α → Except String β} {b : β} :
    x >>= f = .ok b ↔ ∃ a, x = .ok a ∧ f a = .ok b := by
  cases x with
  | error e => simp [Bind.bind, Except.bind]
  | ok a => simp [Bind.bind, Except.bind]

/-- A successful `pyGet` comes from a dict and returns the looked-up
value or the default. -/
theorem pyGet_ok {v : JVal} {k : String} {d r : JVal}
    (h : pyGet v k d = .ok r) :
    ∃ fs, v = .dict fs ∧ r = (jlookup fs k).getD d := by
  cases v <;> simp [pyGet] at h
  case dict fs => exact ⟨fs, rfl, h.symm⟩

/-- A value found by `jlookup` in a null-free association list is
null-free. -/
theorem noNull_of_jlookup {fs : List (String × JVal)} {k : String} {v : JVal}
    (hfs : noNullFields fs = true) (h : jlookup fs k = some v) :
    noNull v = true := by
  induction fs with
  | nil => simp [jlookup] at h
  | cons kv rest ih =>
    obtain ⟨k2, w⟩ := kv
    simp [noNullFields] at hfs
    by_cases hk : k2 = k
    · simp [jlookup, hk] at h
      exact h ▸ hfs.1
    · simp [jlookup, hk] at h
      exact ih hfs.2 h

/-- Lookup via `pyGet` preserves null-freeness when both the dict and the default
are null-free. -/
theorem noNull_pyGet {v : JVal} {k : String} {d r : JVal}
    (h : pyGet v k d = .ok r) (hv : noNull v = true)
    (hd : noNull d = true) : noNull r = true := by
  obtain ⟨fs, rfl, hr⟩ := pyGet_ok h
  cases hl : jlookup fs k with
  | none => simp [hl] at hr; exact hr ▸ hd
  | some w =>
    simp [hl] at hr
    exact hr ▸ noNull_of_jlookup (by simpa [noNull] using hv) hl

/-- Indexing via `pySub0` preserves null-freeness. -/
theorem noNull_pySub0 {v r : JVal}
    (hv : noNull v = true) (h : pySub0 v = .ok r) : noNull r = true := by
  cases v with
  | list xs =>
    cases xs with
    | nil => simp [pySub0] at h
    | cons x rest =>
      simp [pySub0] at h
      simp [noNull, noNullList] at hv
      exact h ▸ hv.1
  | str s =>
    cases hs : s.data with
    | nil => simp [pySub0, hs] at h
    | cons c cs => simp [pySub0, hs] at h; simp [← h, noNull]
  | none => simp [pySub0] at h
  | bool b => simp [pySub0] at h
  | int n => simp [pySub0] at h
  | dict fs => simp [pySub0] at h

/-- Subscripting via `pySubscript` preserves null-freeness. -/
theorem noNull_pySubscript {v : JVal} {k : String} {r : JVal}
    (hv : noNull v = true) (h : pySubscript v k = .ok r) : noNull r = true := by
  cases v <;> simp [pySubscript] at h
  case dict fs =>
    cases hl : jlookup fs k with
    | none => simp [hl] at h
    | some w =>
      simp [hl] at h
      exact h ▸ noNull_of_jlookup (by simpa [noNull] using hv) hl

/-- Python `or` via `pyOr` preserves null-freeness. -/
theorem noNull_pyOr {x y : JVal}
    (hx : noNull x = true) (hy : noNull y = true) :
    noNull (pyOr x y) = true := by
  unfold pyOr
  split <;> assumption

/-- Iteration via `pyIter` preserves null-freeness of all yielded elements. -/
theorem noNull_pyIter {v : JVal} {xs : List JVal}
    (hv : noNull v = true) (h : pyIter v = .ok xs) :
    noNullList xs = true := by
  cases v with
  | list ys => simp [pyIter] at h; exact h ▸ (by simpa [noNull] using hv)
  | dict fs =>
    simp [pyIter] at h
    subst h
    induction fs with
    | nil => simp [noNullList]
    | cons kv rest ih =>
      simp [noNullList, noNull]
      exact ih (by simp [noNull, noNullFields] at hv ⊢; exact hv.2)
  | str s =>
    simp [pyIter] at h
    subst h
    induction s.data with
    | nil => simp [noNullList]
    | cons c cs ih => simpa [noNullList, noNull] using ih
  | none => simp [pyIter] at h
  | bool b => simp [pyIter] at h
  | int n => simp [pyIter] at h

/-- A null-free value is not Python `None`. -/
theorem ne_none_of_noNull {v : JVal} (h : noNull v = true) : v ≠ JVal.none := by
  intro hv
  subst hv
  simp [noNull] at h

/-- The extracted title is null-free when the summary is. -/
theorem noNull_titleOf {ws t : JVal} (hws : noNull ws = true)
    (h : titleOf ws = .ok t) : noNull t = true := by
  unfold titleOf at h
  rw [exceptBind_ok] at h
  obtain ⟨t1, h1, h⟩ := h
  rw [exceptBind_ok] at h
  obtain ⟨t2, h2, h⟩ := h
  exact noNull_pyGet h (noNull_pyGet h2 (noNull_pyGet h1 hws rfl) rfl) rfl

/-- The source fallback yields a null-free journal when the summary is
null-free. -/
theorem noNull_sourceFallback {ws r : JVal} (hws : noNull ws = true)
    (h : sourceFallback ws = .ok r) : noNull r = true := by
  unfold sourceFallback at h
  rw [exceptBind_ok] at h
  obtain ⟨sources, h1, h⟩ := h
  have hs : noNull sources = true := noNull_pyGet h1 hws rfl
  by_cases ht : truthy sources = true
  · simp only [ht, if_true] at h
    rw [exceptBind_ok] at h
    obtain ⟨src, h2, h⟩ := h
    have hsrc := noNull_pySub0 hs h2
    rw [exceptBind_ok] at h
    obtain ⟨b, h3, h⟩ := h
    by_cases hb : b = true
    · simp only [hb, if_true] at h
      rw [exceptBind_ok] at h
      obtain ⟨sn, h4, h⟩ := h
      exact noNull_pyGet h (noNull_pySubscript hsrc h4) rfl
    · rw [Bool.not_eq_true] at hb
      simp only [hb, Bool.false_eq_true, if_false, pure, Except.pure,
        Except.ok.injEq] at h
      exact h ▸ rfl
  · rw [Bool.not_eq_true] at ht
    simp only [ht, Bool.false_eq_true, if_false, pure, Except.pure,
      Except.ok.injEq] at h
    exact h ▸ rfl

/-- The extracted journal is null-free when the summary is. -/
theorem noNull_journalOf {ws r : JVal} (hws : noNull ws = true)
    (h : journalOf ws = .ok r) : noNull r = true := by
  unfold journalOf at h
  rw [exceptBind_ok] at h
  obtain ⟨b, h1, h⟩ := h
  by_cases hb : b = true
  · simp only [hb, if_true] at h
    rw [exceptBind_ok] at h
    obtain ⟨jt, h2, h⟩ := h
    have hjt := noNull_pySubscript hws h2
    by_cases htr : truthy jt = true
    · simp only [htr, if_true] at h
      exact noNull_pyGet h hjt rfl
    · rw [Bool.not_eq_true] at htr
      simp only [htr, Bool.false_eq_true, if_false] at h
      exact noNull_sourceFallback hws h
  · rw [Bool.not_eq_true] at hb
    simp only [hb, Bool.false_eq_true, if_false] at h
    exact noNull_sourceFallback hws h

/-- The DOI scan yields a null-free value when the scanned entries are
null-free. -/
theorem noNull_findDoi {items : List JVal} {r : JVal}
    (hl : noNullList items = true) (h : findDoi items = .ok r) :
    noNull r = true := by
  induction items with
  | nil =>
    simp only [findDoi, pure, Except.pure, Except.ok.injEq] at h
    exact h ▸ rfl
  | cons e rest ih =>
    simp only [noNullList, Bool.and_eq_true] at hl
    unfold findDoi at h
    rw [exceptBind_ok] at h
    obtain ⟨t, h1, h⟩ := h
    cases t with
    | str s =>
      by_cases hs : s = "doi"
      · simp only [hs, if_true] at h
        exact noNull_pyGet h hl.1 rfl
      · simp only [hs, if_false] at h
        exact ih hl.2 h
    | none => exact ih hl.2 h
    | bool b2 => exact ih hl.2 h
    | int n => exact ih hl.2 h
    | list xs => exact ih hl.2 h
    | dict fs => exact ih hl.2 h

/-- The extracted DOI is null-free when the summary is. -/
theorem noNull_doiOf {ws r : JVal} (hws : noNull ws = true)
    (h : doiOf ws = .ok r) : noNull r = true := by
  unfold doiOf at h
  rw [exceptBind_ok] at h
  obtain ⟨e1, h1, h⟩ := h
  rw [exceptBind_ok] at h
  obtain ⟨eids, h2, h⟩ := h
  rw [exceptBind_ok] at h
  obtain ⟨items, h3, h⟩ := h
  exact noNull_findDoi (noNull_pyIter (noNull_pyGet h2 (noNull_pyGet h1 hws rfl) rfl) h3) h

/-- A record extracted from a null-free group has null-free title,
journal and DOI fields. -/
theorem noNull_processGroup {g : JVal} {wk : Work} (hg : noNull g = true)
    (h : processGroup g = .ok wk) :
    noNull wk.title = true ∧ noNull wk.journal = true ∧ noNull wk.doi = true := by
  unfold processGroup at h
  rw [exceptBind_ok] at h
  obtain ⟨ws0, h1, h⟩ := h
  rw [exceptBind_ok] at h
  obtain ⟨ws, h2, h⟩ := h
  rw [exceptBind_ok] at h
  obtain ⟨t, h3, h⟩ := h
  rw [exceptBind_ok] at h
  obtain ⟨pd, h4, h⟩ := h
  rw [exceptBind_ok] at h
  obtain ⟨j, h5, h⟩ := h
  rw [exceptBind_ok] at h
  obtain ⟨d, h6, h⟩ := h
  simp only [pure, Except.pure, Except.ok.injEq] at h
  have hws : noNull ws = true := noNull_pySub0 (noNull_pyGet h1 hg rfl) h2
  subst h
  exact ⟨noNull_titleOf hws h3, noNull_journalOf hws h5, noNull_doiOf hws h6⟩

/-- Every record produced by the extraction loop over null-free groups
has null-free title, journal and DOI. -/
theorem noNull_extractLoop {gs : List JVal} {ws : List Work}
    (hgs : noNullList gs = true) (h : extractLoop gs = .ok ws) :
    ∀ wk ∈ ws, noNull wk.title = true ∧ noNull wk.journal = true ∧
      noNull wk.doi = true := by
  induction gs generalizing ws with
  | nil =>
    simp only [extractLoop, Except.ok.injEq] at h
    subst h
    intro wk hwk
    simp at hwk
  | cons g rest ih =>
    simp only [noNullList, Bool.and_eq_true] at hgs
    unfold extractLoop at h
    rw [exceptBind_ok] at h
    obtain ⟨wk1, h1, h⟩ := h
    rw [exceptBind_ok] at h
    obtain ⟨ws2, h2, h⟩ := h
    simp only [pure, Except.pure, Except.ok.injEq] at h
    subst h
    intro wk hwk
    rcases List.mem_cons.mp hwk with hwk | hwk
    · exact hwk ▸ noNull_processGroup hgs.1 h1
    · exact ih hgs.2 h2 wk hwk

/-- Every record extracted from a null-free document has null-free
title, journal and DOI. -/
theorem noNull_extractWorks {data : JVal} {ws : List Work}
    (hd : noNull data = true) (h : extractWorks data = .ok ws) :
    ∀ wk ∈ ws, noNull wk.title = true ∧ noNull wk.journal = true ∧
      noNull wk.doi = true := by
  unfold extractWorks at h
  rw [exceptBind_ok] at h
  obtain ⟨gv, h1, h⟩ := h
  rw [exceptBind_ok] at h
  obtain ⟨groups, h2, h⟩ := h
  exact noNull_extractLoop (noNull_pyIter (noNull_pyGet h1 hd rfl) h2) h

/-- The fetch wrapper `get_orcid_works` yields records with null-free title, journal and
DOI whenever every successfully fetched document is null-free. -/
theorem noNull_get_orcid_works {w : World} {oid : String} {ws : List Work}
    (hw : ∀ data, w.http oid = .success data → noNull data = true)
    (h : get_orcid_works w oid = .ok ws) :
    ∀ wk ∈ ws, noNull wk.title = true ∧ noNull wk.journal = true ∧
      noNull wk.doi = true := by
  unfold get_orcid_works at h
  cases hh : w.http oid with
  | failure =>
    rw [hh] at h
    simp only [Except.ok.injEq] at h
    subst h
    intro wk hwk
    simp at hwk
  | success data =>
    rw [hh] at h
    exact noNull_extractWorks (hw data hh) h

/-- One roster-row iteration yields tagged records with null-free
title, journal and DOI, under the same fetch hypothesis. -/
theorem noNull_processRow {w : World}
    (hw : ∀ oid data, w.http oid = .success data → noNull data = true)
    {r : RosterRow} {out : List TaggedWork} {tr : List String}
    (h : processRow w r = .ok (out, tr)) :
    ∀ t ∈ out, noNull t.work.title = true ∧ noNull t.work.journal = true ∧
      noNull t.work.doi = true := by
  simp only [processRow] at h
  by_cases hv : isInvalidOrcid (pyStrip (pyStr r.orcid)) = true
  · simp only [hv, if_true, Except.ok.injEq, Prod.mk.injEq] at h
    obtain ⟨h1, h2⟩ := h
    subst h1
    intro t ht
    simp at ht
  · rw [Bool.not_eq_true] at hv
    simp only [hv, Bool.false_eq_true, if_false] at h
    cases hg : get_orcid_works w (pyStrip (pyStr r.orcid)) with
    | error e => rw [hg] at h; simp at h
    | ok works =>
      rw [hg] at h
      simp only [Except.ok.injEq, Prod.mk.injEq] at h
      obtain ⟨h1, h2⟩ := h
      subst h1
      intro t ht
      obtain ⟨wk, hwk, hte⟩ := List.mem_map.mp ht
      have := noNull_get_orcid_works (fun d hd => hw _ d hd) hg wk hwk
      rw [← hte]
      exact this

/-- The whole roster loop yields tagged records with null-free title,
journal and DOI, under the same fetch hypothesis. -/
theorem noNull_processRows {w : World}
    (hw : ∀ oid data, w.http oid = .success data → noNull data = true) :
    ∀ {rows : List RosterRow} {acc : List TaggedWork} {tr : List String},
      processRows w rows = .ok (acc, tr) →
      ∀ t ∈ acc, noNull t.work.title = true ∧ noNull t.work.journal = true ∧
        noNull t.work.doi = true := by
  intro rows
  induction rows with
  | nil =>
    intro acc tr h
    simp only [processRows, Except.ok.injEq, Prod.mk.injEq] at h
    obtain ⟨h1, h2⟩ := h
    subst h1
    intro t ht
    simp at ht
  | cons r rest ih =>
    intro acc tr h
    unfold processRows at h
    cases hpr : processRow w r with
    | error e => rw [hpr] at h; simp at h
    | ok p =>
      obtain ⟨ws1, tr1⟩ := p
      rw [hpr] at h
      cases hrest : processRows w rest with
      | error e => rw [hrest] at h; simp at h
      | ok q =>
        obtain ⟨ws2, tr2⟩ := q
        rw [hrest] at h
        simp only [Except.ok.injEq, Prod.mk.injEq] at h
        obtain ⟨h1, h2⟩ := h
        subst h1
        intro t ht
        rcases List.mem_append.mp ht with ht | ht
        · exact noNull_processRow hw hpr t ht
        · exact ih hrest t ht

/-- The extraction loop yields exactly one record per group. -/
theorem extractLoop_length {gs : List JVal} {ws : List Work}
    (h : extractLoop gs = .ok ws) : ws.length = gs.length := by
  induction gs generalizing ws with
  | nil =>
    simp only [extractLoop, Except.ok.injEq] at h
    subst h
    rfl
  | cons g rest ih =>
    unfold extractLoop at h
    rw [exceptBind_ok] at h
    obtain ⟨w1, h1, h⟩ := h
    rw [exceptBind_ok] at h
    obtain ⟨ws2, h2, h⟩ := h
    simp only [pure, Except.pure, Except.ok.injEq] at h
    subst h
    simp [ih h2]

/-- C1: the claim states that the normalization loop of
`get_orcid_works` never raises when optional fields are structurally
malformed or missing, in particular for a group whose `work-summary`
key maps to an empty list and for a summary whose `title` key maps to
null.  The code does degrade gracefully when the `group` key is absent
(first conjunct), but it raises `IndexError` on the empty
`work-summary` list (the `[dict()]` default of `group.get` does not
apply to an empty stored list, and indexing `[0]` fails) and raises
`AttributeError` on a null `title` (`.get` is called on `None`).  This
theorem evaluates the embedded loop at those inputs. -/
theorem C1_extraction_crash_cases :
    extractWorks (.dict [("other", .int 1)]) = .ok [] ∧
    extractWorks (.dict [("group", .list [.dict [("work-summary", .list [])]])]) =
      .error "IndexError" ∧
    extractWorks (.dict [("group", .list [.dict [("work-summary",
      .list [.dict [("title", JVal.none)]])]])]) = .error "AttributeError" :=
  ⟨rfl, rfl, rfl⟩

/-- C10: a group entry that lacks a `work-summary` key is not skipped:
the `[dict()]` default makes the loop body see an empty summary and
produce the all-defaults record (title `"N/A"`, no publication date,
journal `"N/A"`, doi `"N/A"`); and whenever extraction succeeds, it
yields exactly one record per group of the document. -/
theorem C10_group_without_summary_yields_default_record :
    (∀ gfs : List (String × JVal), jlookup gfs "work-summary" = Option.none →
      processGroup (.dict gfs) =
        .ok ⟨.str "N/A", Option.none, .str "N/A", .str "N/A"⟩)
    ∧ (∀ (dfs : List (String × JVal)) (gs : List JVal) (recs : List Work),
      jlookup dfs "group" = some (.list gs) →
      extractWorks (.dict dfs) = .ok recs →
      recs.length = gs.length) := by
  constructor
  · intro gfs h
    have h1 : pyGet (.dict gfs) "work-summary" (.list [.dict []]) =
        .ok (.list [.dict []]) := by simp [pyGet, h]
    unfold processGroup
    rw [h1]
    rfl
  · intro dfs gs recs h1 h2
    have hg : pyGet (.dict dfs) "group" (.list []) = .ok (.list gs) := by
      simp [pyGet, h1]
    unfold extractWorks at h2
    rw [hg] at h2
    rw [exceptBind_ok] at h2
    obtain ⟨gv, hgv, h2⟩ := h2
    simp only [Except.ok.injEq] at hgv
    subst hgv
    rw [exceptBind_ok] at h2
    obtain ⟨groups, hgr, h2⟩ := h2
    simp only [pyIter, Except.ok.injEq] at hgr
    subst hgr
    exact extractLoop_length h2

/-- Witness for C10 at concrete inputs: a group with only an unrelated
key produces the default record, and a two-group document produces two
records. -/
theorem C10_witness :
    jlookup [("x", JVal.int 0)] "work-summary" = Option.none ∧
    processGroup (.dict [("x", JVal.int 0)]) =
      .ok ⟨.str "N/A", Option.none, .str "N/A", .str "N/A"⟩ ∧
    extractWorks (.dict [("group", .list [.dict [], .dict [("x", .int 1)]])]) =
      .ok [⟨.str "N/A", Option.none, .str "N/A", .str "N/A"⟩,
           ⟨.str "N/A", Option.none, .str "N/A", .str "N/A"⟩] ∧
    ([⟨.str "N/A", Option.none, .str "N/A", .str "N/A"⟩,
      ⟨.str "N/A", Option.none, .str "N/A", .str "N/A"⟩] : List Work).length =
      ([.dict [], .dict [("x", .int 1)]] : List JVal).length :=
  ⟨rfl, C10_group_without_summary_yields_default_record.1 _ rfl, rfl,
    C10_group_without_summary_yields_default_record.2
      [("group", .list [.dict [], .dict [("x", .int 1)]])]
      [.dict [], .dict [("x", .int 1)]] _ rfl rfl⟩

/-- C2: the publication date is built from the `publication-date`
substructure as year-month-day with month and day read from their
`value` fields, each defaulting to `"01"` when its key is absent, and
zero-padded to two digits by `zfill 2`; when the year is missing or
empty the result is `None` regardless of month/day presence; and when
there is no `publication-date` key at all the result is `None`. -/
theorem C2_publication_date :
    (∀ (fs : List (String × JVal)) (y m d : String),
      y ≠ "" → m ≠ "" → d ≠ "" →
      jlookup fs "publication-date" = some (.dict
        [("year", .dict [("value", .str y)]),
         ("month", .dict [("value", .str m)]),
         ("day", .dict [("value", .str d)])]) →
      pubDateOf (.dict fs) =
        .ok (some (y ++ "-" ++ zfill 2 m ++ "-" ++ zfill 2 d)))
    ∧ (∀ (fs : List (String × JVal)) (y : String),
      y ≠ "" →
      jlookup fs "publication-date" = some (.dict
        [("year", .dict [("value", .str y)])]) →
      pubDateOf (.dict fs) = .ok (some (y ++ "-" ++ "01" ++ "-" ++ "01")))
    ∧ (∀ (fs : List (String × JVal)) (m d : String),
      jlookup fs "publication-date" = some (.dict
        [("month", .dict [("value", .str m)]),
         ("day", .dict [("value", .str d)])]) →
      pubDateOf (.dict fs) = .ok Option.none)
    ∧ (∀ (fs : List (String × JVal)) (m d : String),
      jlookup fs "publication-date" = some (.dict
        [("year", .dict [("value", .str "")]),
         ("month", .dict [("value", .str m)]),
         ("day", .dict [("value", .str d)])]) →
      pubDateOf (.dict fs) = .ok Option.none)
    ∧ (∀ fs : List (String × JVal),
      jlookup fs "publication-date" = Option.none →
      pubDateOf (.dict fs) = .ok Option.none) := by
  refine ⟨?_, ?_, ?_, ?_, ?_⟩
  · intro fs y m d hy hm hd h
    have h1 : pyGetNone (.dict fs) "publication-date" = .ok (.dict
          [("year", .dict [("value", .str y)]),
           ("month", .dict [("value", .str m)]),
           ("day", .dict [("value", .str d)])]) := by
      simp [pyGetNone, pyGet, h]
    unfold pubDateOf
    rw [h1]
    simp [pyGetNone, pyGet, jlookup, pyOr, truthy, pyStr, hy, hm, hd,
      Bind.bind, Except.bind, pure, Except.pure]
  · intro fs y hy h
    have h1 : pyGetNone (.dict fs) "publication-date" = .ok (.dict
          [("year", .dict [("value", .str y)])]) := by
      simp [pyGetNone, pyGet, h]
    unfold pubDateOf
    rw [h1]
    have hz : zfill 2 "01" = "01" := rfl
    simp [pyGetNone, pyGet, jlookup, pyOr, truthy, pyStr, hy,
      Bind.bind, Except.bind, pure, Except.pure, hz]
  · intro fs m d h
    have h1 : pyGetNone (.dict fs) "publication-date" = .ok (.dict
          [("month", .dict [("value", .str m)]),
           ("day", .dict [("value", .str d)])]) := by
      simp [pyGetNone, pyGet, h]
    unfold pubDateOf
    rw [h1]
    by_cases hm : m = "" <;> by_cases hd : d = "" <;>
      simp [pyGetNone, pyGet, jlookup, pyOr, truthy, pyStr, hm, hd,
        Bind.bind, Except.bind, pure, Except.pure]
  · intro fs m d h
    have h1 : pyGetNone (.dict fs) "publication-date" = .ok (.dict
          [("year", .dict [("value", .str "")]),
           ("month", .dict [("value", .str m)]),
           ("day", .dict [("value", .str d)])]) := by
      simp [pyGetNone, pyGet, h]
    unfold pubDateOf
    rw [h1]
    by_cases hm : m = "" <;> by_cases hd : d = "" <;>
      simp [pyGetNone, pyGet, jlookup, pyOr, truthy, pyStr, hm, hd,
        Bind.bind, Except.bind, pure, Except.pure]
  · intro fs h
    have h1 : pyGetNone (.dict fs) "publication-date" = .ok JVal.none := by
      simp [pyGetNone, pyGet, h]
    unfold pubDateOf
    rw [h1]
    rfl

/-- Witness for C2 at concrete inputs, including the zero-padding
example year 2023, month 3, day 7 giving `"2023-03-07"`, a defaulted
month/day, a missing year and a missing `publication-date` key. -/
theorem C2_witness :
    ("2023" : String) ≠ "" ∧ ("3" : String) ≠ "" ∧ ("7" : String) ≠ "" ∧
    pubDateOf (.dict [("publication-date", .dict
      [("year", .dict [("value", .str "2023")]),
       ("month", .dict [("value", .str "3")]),
       ("day", .dict [("value", .str "7")])])]) = .ok (some "2023-03-07") ∧
    pubDateOf (.dict [("publication-date", .dict
      [("year", .dict [("value", .str "2021")])])]) = .ok (some "2021-01-01") ∧
    pubDateOf (.dict [("publication-date", .dict
      [("month", .dict [("value", .str "5")]),
       ("day", .dict [("value", .str "6")])])]) = .ok Option.none ∧
    pubDateOf (.dict [("publication-date", .dict
      [("year", .dict [("value", .str "")]),
       ("month", .dict [("value", .str "5")]),
       ("day", .dict [("value", .str "6")])])]) = .ok Option.none ∧
    pubDateOf (.dict [("title", .dict [])]) = .ok Option.none := by
  refine ⟨by decide, by decide, by decide, ?_, ?_, ?_, ?_, ?_⟩
  · exact (C2_publication_date.1 [("publication-date", .dict
      [("year", .dict [("value", .str "2023")]),
       ("month", .dict [("value", .str "3")]),
       ("day", .dict [("value", .str "7")])])] "2023" "3" "7"
      (by decide) (by decide) (by decide) rfl).trans rfl
  · exact (C2_publication_date.2.1 [("publication-date", .dict
      [("year", .dict [("value", .str "2021")])])] "2021" (by decide) rfl).trans rfl
  · exact C2_publication_date.2.2.1 [("publication-date", .dict
      [("month", .dict [("value", .str "5")]),
       ("day", .dict [("value", .str "6")])])] "5" "6" rfl
  · exact C2_publication_date.2.2.2.1 [("publication-date", .dict
      [("year", .dict [("value", .str "")]),
       ("month", .dict [("value", .str "5")]),
       ("day", .dict [("value", .str "6")])])] "5" "6" rfl
  · exact C2_publication_date.2.2.2.2 [("title", .dict [])] rfl

/-- The source-list fallback reads `source-name.value` of the first
entry of the `source` list. -/
theorem sourceFallback_first_source {fs sfs snfs : List (String × JVal)}
    {rest : List JVal} {v : JVal}
    (hsrc : jlookup fs "source" = some (.list (.dict sfs :: rest)))
    (hsn : jlookup sfs "source-name" = some (.dict snfs))
    (hv : jlookup snfs "value" = some v) :
    sourceFallback (.dict fs) = .ok v := by
  unfold sourceFallback
  have h1 : pyGet (.dict fs) "source" (.list []) =
      .ok (.list (.dict sfs :: rest)) := by simp [pyGet, hsrc]
  rw [h1]
  simp [Bind.bind, Except.bind, truthy, pySub0, pyContains, hsn,
    pySubscript, pyGet, hv]

/-- The source-list fallback yields `"N/A"` when the `source` key is
absent or maps to an empty list. -/
theorem sourceFallback_unavailable {fs : List (String × JVal)}
    (hsrc : jlookup fs "source" = Option.none ∨
      jlookup fs "source" = some (.list [])) :
    sourceFallback (.dict fs) = .ok (.str "N/A") := by
  unfold sourceFallback
  rcases hsrc with hsrc | hsrc <;>
  · have h1 : pyGet (.dict fs) "source" (.list []) = .ok (.list []) := by
      simp [pyGet, hsrc]
    rw [h1]
    simp [Bind.bind, Except.bind, truthy, pure, Except.pure]

/-- When the `journal-title` key is absent or its value is falsy, the
journal block reduces to the source-list fallback. -/
theorem journalOf_fallback {fs : List (String × JVal)}
    (hjt : jlookup fs "journal-title" = Option.none ∨
      ∃ x, jlookup fs "journal-title" = some x ∧ truthy x = false) :
    journalOf (.dict fs) = sourceFallback (.dict fs) := by
  unfold journalOf
  rcases hjt with hjt | ⟨x, hx, htr⟩
  · have h1 : pyContains (.dict fs) "journal-title" = .ok false := by
      simp [pyContains, hjt]
    rw [h1]
    simp [Bind.bind, Except.bind]
  · have h1 : pyContains (.dict fs) "journal-title" = .ok true := by
      simp [pyContains, hx]
    have h2 : pySubscript (.dict fs) "journal-title" = .ok x := by
      simp [pySubscript, hx]
    rw [h1]
    simp [Bind.bind, Except.bind, h2, htr]

/-- C3: the journal equals `journal-title.value` whenever the
`journal-title` key is present with a non-empty (truthy) substructure —
regardless of any `source` entry, so `journal-title` wins when both are
present; otherwise it equals `source-name.value` of the first entry of
the `source` list; and when neither is available it equals `"N/A"`. -/
theorem C3_journal_preference :
    (∀ (fs jfs : List (String × JVal)) (v : JVal),
      jlookup fs "journal-title" = some (.dict jfs) →
      jlookup jfs "value" = some v →
      journalOf (.dict fs) = .ok v)
    ∧ (∀ (fs sfs snfs : List (String × JVal)) (rest : List JVal) (v : JVal),
      (jlookup fs "journal-title" = Option.none ∨
        ∃ x, jlookup fs "journal-title" = some x ∧ truthy x = false) →
      jlookup fs "source" = some (.list (.dict sfs :: rest)) →
      jlookup sfs "source-name" = some (.dict snfs) →
      jlookup snfs "value" = some v →
      journalOf (.dict fs) = .ok v)
    ∧ (∀ fs : List (String × JVal),
      (jlookup fs "journal-title" = Option.none ∨
        ∃ x, jlookup fs "journal-title" = some x ∧ truthy x = false) →
      (jlookup fs "source" = Option.none ∨
        jlookup fs "source" = some (.list [])) →
      journalOf (.dict fs) = .ok (.str "N/A")) := by
  refine ⟨?_, ?_, ?_⟩
  · intro fs jfs v hjt hv
    have h1 : pyContains (.dict fs) "journal-title" = .ok true := by
      simp [pyContains, hjt]
    have h2 : pySubscript (.dict fs) "journal-title" = .ok (.dict jfs) := by
      simp [pySubscript, hjt]
    cases jfs with
    | nil => simp [jlookup] at hv
    | cons kv jrest =>
      unfold journalOf
      rw [h1]
      simp [Bind.bind, Except.bind, h2, truthy, pyGet, hv]
  · intro fs sfs snfs rest v hjt hsrc hsn hv
    exact (journalOf_fallback hjt).trans
      (sourceFallback_first_source hsrc hsn hv)
  · intro fs hjt hsrc
    exact (journalOf_fallback hjt).trans (sourceFallback_unavailable hsrc)

/-- Witness for C3 at concrete inputs: `journal-title` wins over a
present `source`; with `journal-title` absent the first source entry is
used; with neither, `"N/A"`. -/
theorem C3_witness :
    journalOf (.dict
      [("journal-title", .dict [("value", .str "Nature")]),
       ("source", .list [.dict [("source-name",
          .dict [("value", .str "Conf X")])]])]) = .ok (.str "Nature") ∧
    journalOf (.dict
      [("source", .list [.dict [("source-name",
          .dict [("value", .str "Conf X")])]])]) = .ok (.str "Conf X") ∧
    journalOf (.dict [("title", .dict [])]) = .ok (.str "N/A") :=
  ⟨C3_journal_preference.1
      [("journal-title", .dict [("value", .str "Nature")]),
       ("source", .list [.dict [("source-name",
          .dict [("value", .str "Conf X")])]])]
      [("value", .str "Nature")] (.str "Nature") rfl rfl,
   C3_journal_preference.2.1
      [("source", .list [.dict [("source-name",
          .dict [("value", .str "Conf X")])]])]
      [("source-name", .dict [("value", .str "Conf X")])]
      [("value", .str "Conf X")] [] (.str "Conf X")
      (Or.inl rfl) rfl rfl rfl,
   C3_journal_preference.2.2 [("title", .dict [])] (Or.inl rfl) (Or.inl rfl)⟩

/-- An external-id entry that the DOI scan passes over without matching
and without raising: a dict whose `external-id-type` is absent or is
anything other than the exact string `"doi"` (Python `==` between
`"doi"` and a non-string is `False`; `"DOI"` differs case-sensitively). -/
def notDoiEntry : JVal → Bool
  | .dict fs =>
    match jlookup fs "external-id-type" with
    | some (.str t) => t ≠ "doi"
    | some _ => true
    | Option.none => true
  | _ => false

/-- The DOI scan skips an entry it does not match. -/
theorem findDoi_skip {e : JVal} {rest : List JVal}
    (he : notDoiEntry e = true) :
    findDoi (e :: rest) = findDoi rest := by
  cases e with
  | dict fs =>
    have h1 : pyGetNone (.dict fs) "external-id-type" =
        .ok ((jlookup fs "external-id-type").getD .none) := by
      simp [pyGetNone, pyGet]
    conv_lhs => rw [findDoi]
    rw [h1]
    cases hl : jlookup fs "external-id-type" with
    | none => rfl
    | some x =>
      cases x with
      | str t =>
        simp only [notDoiEntry, hl] at he
        have hne : t ≠ "doi" := by simpa using he
        show (if t = "doi" then pyGet (.dict fs) "external-id-value" (.str "N/A")
          else findDoi rest) = findDoi rest
        rw [if_neg hne]
      | none => rfl
      | bool b => rfl
      | int n => rfl
      | list xs => rfl
      | dict gs => rfl
  | none => simp [notDoiEntry] at he
  | bool b => simp [notDoiEntry] at he
  | int n => simp [notDoiEntry] at he
  | str s => simp [notDoiEntry] at he
  | list xs => simp [notDoiEntry] at he

/-- The DOI scan stops at a matching entry and returns its value. -/
theorem findDoi_match {efs : List (String × JVal)} {post : List JVal} {v : JVal}
    (ht : jlookup efs "external-id-type" = some (.str "doi"))
    (hv : jlookup efs "external-id-value" = some v) :
    findDoi (.dict efs :: post) = .ok v := by
  unfold findDoi
  have h1 : pyGetNone (.dict efs) "external-id-type" = .ok (.str "doi") := by
    simp [pyGetNone, pyGet, ht]
  rw [h1]
  simp [Bind.bind, Except.bind, pyGet, hv]

/-- C4: the doi field is the `external-id-value` of the first entry of
`external-ids.external-id` whose `external-id-type` is exactly the
string `"doi"` (case-sensitive), entries of other types interleaved
before it being skipped and entries after it being ignored; when no
entry matches, the doi is `"N/A"`; and the scan operates on exactly the
list stored under `external-ids.external-id`. -/
theorem C4_doi_first_match :
    (∀ (pre post : List JVal) (efs : List (String × JVal)) (v : JVal),
      pre.all notDoiEntry = true →
      jlookup efs "external-id-type" = some (.str "doi") →
      jlookup efs "external-id-value" = some v →
      findDoi (pre ++ .dict efs :: post) = .ok v)
    ∧ (∀ entries : List JVal, entries.all notDoiEntry = true →
      findDoi entries = .ok (.str "N/A"))
    ∧ (∀ (fs eifs : List (String × JVal)) (entries : List JVal),
      jlookup fs "external-ids" = some (.dict eifs) →
      jlookup eifs "external-id" = some (.list entries) →
      doiOf (.dict fs) = findDoi entries) := by
  refine ⟨?_, ?_, ?_⟩
  · intro pre post efs v hpre ht hv
    induction pre with
    | nil => exact findDoi_match ht hv
    | cons e rest ih =>
      simp only [List.all_cons, Bool.and_eq_true] at hpre
      rw [List.cons_append, findDoi_skip hpre.1]
      exact ih hpre.2
  · intro entries hall
    induction entries with
    | nil => rfl
    | cons e rest ih =>
      simp only [List.all_cons, Bool.and_eq_true] at hall
      rw [findDoi_skip hall.1]
      exact ih hall.2
  · intro fs eifs entries h1 h2
    unfold doiOf
    have g1 : pyGet (.dict fs) "external-ids" (.dict []) =
        .ok (.dict eifs) := by simp [pyGet, h1]
    have g2 : pyGet (.dict eifs) "external-id" (.list []) =
        .ok (.list entries) := by simp [pyGet, h2]
    rw [g1]
    simp [Bind.bind, Except.bind, g2, pyIter]

/-- Witness for C4: a scan with a case-mismatched `"DOI"` entry and an
`"issn"` entry before the match, and a second `"doi"` entry after it,
returns the first matching value; a scan with no match returns `"N/A"`;
and `doiOf` reads the stored entry list. -/
theorem C4_witness :
    findDoi
      [.dict [("external-id-type", .str "DOI"), ("external-id-value", .str "wrong")],
       .dict [("external-id-type", .str "issn"), ("external-id-value", .str "1234")],
       .dict [("external-id-type", .str "doi"), ("external-id-value", .str "10.1/xyz")],
       .dict [("external-id-type", .str "doi"), ("external-id-value", .str "later")]] =
      .ok (.str "10.1/xyz") ∧
    findDoi [.dict [("external-id-type", .str "issn")]] = .ok (.str "N/A") ∧
    doiOf (.dict [("external-ids", .dict [("external-id",
      .list [.dict [("external-id-type", .str "doi"),
        ("external-id-value", .str "10.1/abc")]])])]) =
      findDoi [.dict [("external-id-type", .str "doi"),
        ("external-id-value", .str "10.1/abc")]] :=
  ⟨C4_doi_first_match.1
      [.dict [("external-id-type", .str "DOI"), ("external-id-value", .str "wrong")],
       .dict [("external-id-type", .str "issn"), ("external-id-value", .str "1234")]]
      [.dict [("external-id-type", .str "doi"), ("external-id-value", .str "later")]]
      [("external-id-type", .str "doi"), ("external-id-value", .str "10.1/xyz")]
      (.str "10.1/xyz") rfl rfl rfl,
   C4_doi_first_match.2.1 [.dict [("external-id-type", .str "issn")]] rfl,
   C4_doi_first_match.2.2
      [("external-ids", .dict [("external-id",
        .list [.dict [("external-id-type", .str "doi"),
          ("external-id-value", .str "10.1/abc")]])])]
      [("external-id", .list [.dict [("external-id-type", .str "doi"),
        ("external-id-value", .str "10.1/abc")]])]
      [.dict [("external-id-type", .str "doi"),
        ("external-id-value", .str "10.1/abc")]] rfl rfl⟩

/-- C5 counterexample: a document that stores null under
`title.title.value` produces a WorkRecord whose title is Python `None`,
and that null reaches the exported table (the `Title` cell of the single
exported row is `JVal.none`, not a real value and not `"N/A"`), so the
claim that title, journal and doi are never absent/null in the exported
table fails as stated. -/
theorem C5_counterexample :
    fetch_orcid_works_from_excel
      ⟨fun _ => .success (.dict [("group", .list [.dict [("work-summary", .list
          [.dict [("title", .dict [("title", .dict [("value", JVal.none)])])]])]])]),
       fun _ => .ok ⟨["Name", "ORCID"], [⟨.str "A", .str "0000-0001"⟩]⟩⟩
      ⟨some "in.xlsx", some "out.xlsx"⟩ "in.xlsx" "out.xlsx" =
      ⟨.written "out.xlsx" exportHeader
        [[.str "A", .str "0000-0001", JVal.none, JVal.none, .str "N/A", .str "N/A"]],
       ["0000-0001"]⟩ ∧
    JVal.none ≠ JVal.str "N/A" :=
  ⟨rfl, fun h => JVal.noConfusion h⟩

/-- C5 amended: whenever the run writes the output table, the header is
exactly `Name, ORCID, Title, Publication Date, Journal/Source, DOI` and
every row is the fixed six-column projection of a tagged record; and
provided every fetched document is null-free, the Title, Journal/Source
and DOI cells are never null — publication date remains the sole field
that may be null.  (Without the null-free hypothesis a document null can
flow into those cells, as the counterexample shows.) -/
theorem C5_export_schema_and_nonnull_fields
    (w : World) (g : Globals) (a b fout : String)
    (hdr : List String) (rows : List (List JVal))
    (hw : ∀ oid data, w.http oid = .success data → noNull data = true)
    (h : (fetch_orcid_works_from_excel w g a b).result = .written fout hdr rows) :
    hdr = exportHeader ∧
    ∀ row ∈ rows, ∃ t : TaggedWork, row = exportRow t ∧
      t.work.title ≠ JVal.none ∧ t.work.journal ≠ JVal.none ∧
      t.work.doi ≠ JVal.none := by
  unfold fetch_orcid_works_from_excel at h
  cases hin : g.input_file with
  | none => simp only [hin] at h; simp at h
  | some fin =>
    simp only [hin] at h
    cases hre : w.readExcel fin with
    | error e => simp only [hre] at h; simp at h
    | ok tbl =>
      simp only [hre] at h
      by_cases hcols : "Name" ∈ tbl.columns ∧ "ORCID" ∈ tbl.columns
      · rw [if_pos hcols] at h
        cases hpr : processRows w tbl.rows with
        | error e => simp only [hpr] at h; simp at h
        | ok p =>
          obtain ⟨allWorks, tr⟩ := p
          simp only [hpr] at h
          by_cases hemp : allWorks.isEmpty = true
          · rw [if_pos hemp] at h; simp at h
          · rw [if_neg hemp] at h
            cases hout : g.output_file with
            | none => simp only [hout] at h; simp at h
            | some fo =>
              simp only [hout] at h
              simp only [RunResult.written.injEq] at h
              obtain ⟨hfo, hhdr, hrows⟩ := h
              refine ⟨hhdr.symm, ?_⟩
              intro row hrow
              rw [← hrows] at hrow
              obtain ⟨t, ht, hte⟩ := List.mem_map.mp hrow
              have hn := noNull_processRows hw hpr t ht
              exact ⟨t, hte.symm, ne_none_of_noNull hn.1,
                ne_none_of_noNull hn.2.1, ne_none_of_noNull hn.2.2⟩
      · rw [if_neg hcols] at h
        simp at h

/-- Witness for C5 at a concrete run: one roster row and a null-free
document with one work produce a written table whose header and single
row have the stated shape. -/
theorem C5_witness :
    exportHeader = exportHeader ∧
    ∀ row ∈ [[JVal.str "A", .str "0000-0001", .str "Paper A", JVal.none,
        .str "N/A", .str "N/A"]], ∃ t : TaggedWork, row = exportRow t ∧
      t.work.title ≠ JVal.none ∧ t.work.journal ≠ JVal.none ∧
      t.work.doi ≠ JVal.none :=
  C5_export_schema_and_nonnull_fields
    ⟨fun _ => .success (.dict [("group", .list [.dict [("work-summary", .list
        [.dict [("title", .dict [("title", .dict [("value", .str "Paper A")])])]])]])]),
     fun _ => .ok ⟨["Name", "ORCID"], [⟨.str "A", .str "0000-0001"⟩]⟩⟩
    ⟨some "in.xlsx", some "out.xlsx"⟩ "in.xlsx" "out.xlsx" "out.xlsx"
    exportHeader
    [[JVal.str "A", .str "0000-0001", .str "Paper A", JVal.none,
      .str "N/A", .str "N/A"]]
    (fun oid data hd => by injection hd with h2; rw [← h2]; rfl)
    rfl

/-- C6: a roster row whose identifier (its stripped string form) is
empty or one of the case-insensitive sentinel tokens `nan`, `none`,
`null` is skipped entirely: the row contributes no records and no fetch
(its fetch trace is empty), no error is raised, and the loop over the
remaining rows is unchanged. -/
theorem C6_invalid_identifier_skipped
    (w : World) (r : RosterRow) (rest : List RosterRow)
    (h : isInvalidOrcid (pyStrip (pyStr r.orcid)) = true) :
    processRow w r = .ok ([], []) ∧
    processRows w (r :: rest) = processRows w rest := by
  have h1 : processRow w r = .ok ([], []) := by
    simp only [processRow, h, if_true]
  refine ⟨h1, ?_⟩
  conv_lhs => rw [processRows]
  rw [h1]
  cases hrest : processRows w rest with
  | error e => rfl
  | ok q =>
    obtain ⟨ws2, tr2⟩ := q
    simp

/-- Witness for C6: a cell holding the string `" NaN "` (stripping and
lowercasing give the sentinel `nan`) is skipped and leaves the loop
unchanged. -/
theorem C6_witness :
    isInvalidOrcid (pyStrip (pyStr (.str " NaN "))) = true ∧
    processRow ⟨fun _ => .failure, fun _ => .error "no file"⟩
      ⟨.str "Bob", .str " NaN "⟩ = .ok ([], []) ∧
    processRows ⟨fun _ => .failure, fun _ => .error "no file"⟩
      [⟨.str "Bob", .str " NaN "⟩] =
      processRows ⟨fun _ => .failure, fun _ => .error "no file"⟩ [] :=
  ⟨rfl,
   (C6_invalid_identifier_skipped ⟨fun _ => .failure, fun _ => .error "no file"⟩
      ⟨.str "Bob", .str " NaN "⟩ [] rfl).1,
   (C6_invalid_identifier_skipped ⟨fun _ => .failure, fun _ => .error "no file"⟩
      ⟨.str "Bob", .str " NaN "⟩ [] rfl).2⟩

/-- C7: when the roster loop completes with an empty accumulator (all
rows invalid or all fetches empty), the run ends in the
nothing-to-export notice: by construction of the embedding this
constructor carries no written file, and it is distinct from the
configuration-error and uncaught-exception outcomes. -/
theorem C7_empty_accumulator_no_export
    (w : World) (g : Globals) (a b fin : String) (tbl : ExcelTable)
    (tr : List String)
    (hin : g.input_file = some fin)
    (hre : w.readExcel fin = .ok tbl)
    (hcols : "Name" ∈ tbl.columns ∧ "ORCID" ∈ tbl.columns)
    (hpr : processRows w tbl.rows = .ok ([], tr)) :
    (fetch_orcid_works_from_excel w g a b).result = .nothingToExport := by
  unfold fetch_orcid_works_from_excel
  rw [hin]
  simp only [hre, if_pos hcols, hpr]
  rfl

/-- Witness for C7: a roster whose only row has an invalid identifier
accumulates nothing, and the run reports nothing-to-export. -/
theorem C7_witness :
    (⟨some "in.xlsx", some "out.xlsx"⟩ : Globals).input_file = some "in.xlsx" ∧
    processRows ⟨fun _ => .failure,
      fun _ => .ok ⟨["Name", "ORCID"], [⟨.str "Bob", .str ""⟩]⟩⟩
      [⟨.str "Bob", .str ""⟩] = .ok ([], []) ∧
    (fetch_orcid_works_from_excel
      ⟨fun _ => .failure,
       fun _ => .ok ⟨["Name", "ORCID"], [⟨.str "Bob", .str ""⟩]⟩⟩
      ⟨some "in.xlsx", some "out.xlsx"⟩ "in.xlsx" "out.xlsx").result =
      .nothingToExport :=
  ⟨rfl, rfl,
   C7_empty_accumulator_no_export
     ⟨fun _ => .failure,
      fun _ => .ok ⟨["Name", "ORCID"], [⟨.str "Bob", .str ""⟩]⟩⟩
     ⟨some "in.xlsx", some "out.xlsx"⟩ "in.xlsx" "out.xlsx" "in.xlsx"
     ⟨["Name", "ORCID"], [⟨.str "Bob", .str ""⟩]⟩ []
     rfl rfl (by simp) rfl⟩

/-- C8: the orchestrator ignores its `input_excel`/`output_excel`
parameters — any two calls differing only in them are identical, because
the body reads the module globals `input_file`/`output_file`; with
`input_file` unbound the read aborts as the cannot-read configuration
error (the `NameError` is caught by the `except` around `pd.read_excel`);
and with `output_file` unbound and a non-empty accumulator the write
step raises an uncaught `NameError`. -/
theorem C8_globals_shadow_parameters :
    (∀ (w : World) (g : Globals) (a b a2 b2 : String),
      fetch_orcid_works_from_excel w g a b = fetch_orcid_works_from_excel w g a2 b2)
    ∧ (∀ (w : World) (g : Globals) (a b : String),
      g.input_file = Option.none →
      (fetch_orcid_works_from_excel w g a b).result =
        .configError "Cannot read Excel file")
    ∧ (∀ (w : World) (g : Globals) (a b fin : String) (tbl : ExcelTable)
        (acc : List TaggedWork) (tr : List String),
      g.input_file = some fin → w.readExcel fin = .ok tbl →
      ("Name" ∈ tbl.columns ∧ "ORCID" ∈ tbl.columns) →
      processRows w tbl.rows = .ok (acc, tr) → acc ≠ [] →
      g.output_file = Option.none →
      (fetch_orcid_works_from_excel w g a b).result = .raised "NameError") := by
  refine ⟨?_, ?_, ?_⟩
  · intro w g a b a2 b2
    rfl
  · intro w g a b hin
    unfold fetch_orcid_works_from_excel
    rw [hin]
  · intro w g a b fin tbl acc tr hin hre hcols hpr hne hout
    have hemp : acc.isEmpty = false := by
      cases acc with
      | nil => exact absurd rfl hne
      | cons x xs => rfl
    unfold fetch_orcid_works_from_excel
    rw [hin]
    simp only [hre, if_pos hcols, hpr, hemp, Bool.false_eq_true, if_false, hout]

/-- Witness for C8: with both globals unbound the run is the cannot-read
configuration error whatever the parameters are; and with `input_file`
bound but `output_file` unbound, a one-row roster whose fetch returns
one record makes the write step raise the uncaught `NameError`. -/
theorem C8_witness :
    fetch_orcid_works_from_excel
      ⟨fun _ => .failure, fun _ => .error "x"⟩ ⟨Option.none, Option.none⟩
      "a.xlsx" "b.xlsx" =
    fetch_orcid_works_from_excel
      ⟨fun _ => .failure, fun _ => .error "x"⟩ ⟨Option.none, Option.none⟩
      "c.xlsx" "d.xlsx" ∧
    (fetch_orcid_works_from_excel
      ⟨fun _ => .failure, fun _ => .error "x"⟩ ⟨Option.none, Option.none⟩
      "a.xlsx" "b.xlsx").result = .configError "Cannot read Excel file" ∧
    (fetch_orcid_works_from_excel
      ⟨fun _ => .success (.dict [("group", .list [.dict []])]),
       fun _ => .ok ⟨["Name", "ORCID"], [⟨.str "A", .str "0000-0001"⟩]⟩⟩
      ⟨some "in.xlsx", Option.none⟩ "a.xlsx" "b.xlsx").result =
      .raised "NameError" :=
  ⟨C8_globals_shadow_parameters.1 ⟨fun _ => .failure, fun _ => .error "x"⟩
      ⟨Option.none, Option.none⟩ "a.xlsx" "b.xlsx" "c.xlsx" "d.xlsx",
   C8_globals_shadow_parameters.2.1 ⟨fun _ => .failure, fun _ => .error "x"⟩
      ⟨Option.none, Option.none⟩ "a.xlsx" "b.xlsx" rfl,
   C8_globals_shadow_parameters.2.2
      ⟨fun _ => .success (.dict [("group", .list [.dict []])]),
       fun _ => .ok ⟨["Name", "ORCID"], [⟨.str "A", .str "0000-0001"⟩]⟩⟩
      ⟨some "in.xlsx", Option.none⟩ "a.xlsx" "b.xlsx" "in.xlsx"
      ⟨["Name", "ORCID"], [⟨.str "A", .str "0000-0001"⟩]⟩
      [⟨"A", "0000-0001", ⟨.str "N/A", Option.none, .str "N/A", .str "N/A"⟩⟩]
      ["0000-0001"]
      rfl rfl (by simp) rfl (by simp) rfl⟩

/-- Dropping by a predicate that holds of every element empties the list. -/
theorem dropWhile_eq_nil_of_all {p : Char → Bool} :
    ∀ l : List Char, (∀ c ∈ l, p c = true) → l.dropWhile p = []
  | [], _ => rfl
  | c :: cs, h => by
    rw [List.dropWhile_cons, if_pos (h c (List.mem_cons_self c cs))]
    exact dropWhile_eq_nil_of_all cs fun x hx => h x (List.mem_cons_of_mem c hx)

/-- Stripping a whitespace-only string yields the empty string. -/
theorem pyStrip_of_all_space {s : String}
    (h : ∀ c ∈ s.data, isPySpace c = true) : pyStrip s = "" := by
  unfold pyStrip
  rw [dropWhile_eq_nil_of_all s.data h]
  rfl

/-- C9: the loop body uses only the stripped string forms of the two
cells (so behaviour depends on nothing else of the raw cells); a
whitespace-only identifier strips to the empty string and the row is
skipped; and the owner name/identifier attached to every produced
record are exactly the stripped string forms, not the raw cells. -/
theorem C9_cells_stringified_and_stripped :
    (∀ (w : World) (r r2 : RosterRow),
      pyStrip (pyStr r.name) = pyStrip (pyStr r2.name) →
      pyStrip (pyStr r.orcid) = pyStrip (pyStr r2.orcid) →
      processRow w r = processRow w r2)
    ∧ (∀ (w : World) (name : JVal) (s : String),
      (∀ c ∈ s.data, isPySpace c = true) →
      processRow w ⟨name, .str s⟩ = .ok ([], []))
    ∧ (∀ (w : World) (r : RosterRow) (out : List TaggedWork) (tr : List String),
      processRow w r = .ok (out, tr) →
      ∀ t ∈ out, t.name = pyStrip (pyStr r.name) ∧
        t.orcid = pyStrip (pyStr r.orcid)) := by
  refine ⟨?_, ?_, ?_⟩
  · intro w r r2 hn ho
    simp only [processRow, hn, ho]
  · intro w name s hs
    have h1 : isInvalidOrcid (pyStrip (pyStr (.str s))) = true := by
      show isInvalidOrcid (pyStrip s) = true
      rw [pyStrip_of_all_space hs]
      rfl
    simp only [processRow, h1, if_true]
  · intro w r out tr h
    simp only [processRow] at h
    by_cases hv : isInvalidOrcid (pyStrip (pyStr r.orcid)) = true
    · simp only [hv, if_true, Except.ok.injEq, Prod.mk.injEq] at h
      obtain ⟨h1, h2⟩ := h
      subst h1
      intro t ht
      simp at ht
    · rw [Bool.not_eq_true] at hv
      simp only [hv, Bool.false_eq_true, if_false] at h
      cases hg : get_orcid_works w (pyStrip (pyStr r.orcid)) with
      | error e => rw [hg] at h; simp at h
      | ok works =>
        rw [hg] at h
        simp only [Except.ok.injEq, Prod.mk.injEq] at h
        obtain ⟨h1, h2⟩ := h
        subst h1
        intro t ht
        obtain ⟨wk, hwk, hte⟩ := List.mem_map.mp ht
        rw [← hte]
        exact ⟨rfl, rfl⟩

/-- Witness for C9: padded cells behave like their stripped forms; a
whitespace-only identifier is skipped; and an integer name cell `7` with
a padded identifier tags the produced record with the stringified,
stripped values `"7"` and `"0000-0001"`. -/
theorem C9_witness :
    processRow ⟨fun _ => .failure, fun _ => .error "x"⟩
      ⟨.str " A ", .str " X1 "⟩ =
    processRow ⟨fun _ => .failure, fun _ => .error "x"⟩
      ⟨.str "A", .str "X1"⟩ ∧
    processRow ⟨fun _ => .failure, fun _ => .error "x"⟩
      ⟨.str "Bob", .str "  "⟩ = .ok ([], []) ∧
    processRow ⟨fun _ => .success (.dict [("group", .list [.dict []])]),
        fun _ => .error "x"⟩ ⟨.int 7, .str " 0000-0001 "⟩ =
      .ok ([⟨"7", "0000-0001",
        ⟨.str "N/A", Option.none, .str "N/A", .str "N/A"⟩⟩], ["0000-0001"]) ∧
    ∀ t ∈ [(⟨"7", "0000-0001",
        ⟨.str "N/A", Option.none, .str "N/A", .str "N/A"⟩⟩ : TaggedWork)],
      t.name = pyStrip (pyStr (JVal.int 7)) ∧
      t.orcid = pyStrip (pyStr (JVal.str " 0000-0001 ")) :=
  ⟨C9_cells_stringified_and_stripped.1 ⟨fun _ => .failure, fun _ => .error "x"⟩
      ⟨.str " A ", .str " X1 "⟩ ⟨.str "A", .str "X1"⟩ rfl rfl,
   C9_cells_stringified_and_stripped.2.1
      ⟨fun _ => .failure, fun _ => .error "x"⟩ (.str "Bob") "  " (by decide),
   rfl,
   C9_cells_stringified_and_stripped.2.2
      ⟨fun _ => .success (.dict [("group", .list [.dict []])]),
       fun _ => .error "x"⟩ ⟨.int 7, .str " 0000-0001 "⟩ _ _ rfl⟩
